import Mathlib

/-!
Shallow embedding of `src/tdms_hd5f.py`: a TDMS-to-HDF5 converter
(`convert_tdms_to_hdf5`), an HDF5 recompressor (`compress_hdf5_file`), and the
command-line entry point (`main`).  HDF5 files are modelled as a root group
(attribute list) together with the flat list of objects that
`h5py.File.visititems` yields: (full-path name, object) pairs, where an object
is either a dataset (shape, element type, data payload, attributes, on-disk
encoding) or a group (attributes).  Full paths identify nodes and encode the
nesting, matching the data model of the HDF5 container.
-/

/-- An HDF5 object as seen by `visititems`: a dataset carries its shape, element
type, data payload, attributes and its on-disk compression encoding
(codec name and level, or `none` for uncompressed); a group carries its
attributes. -/
inductive H5Obj where
  | dataset (shape : List Nat) (dtype : String) (data : List Int)
      (attrs : List (String × String)) (encoding : Option (String × Int))
  | group (attrs : List (String × String))
  deriving DecidableEq, Repr

/-- An HDF5 file: root-group attributes plus the objects below the root,
keyed by full path (in `visititems` order, parents before children). -/
structure H5File where
  rootAttrs : List (String × String)
  objects : List (String × H5Obj)
  deriving DecidableEq, Repr

/-- Index of the last occurrence of `c` in the list, as in Python `str.rfind`
(but returning `none` instead of -1 when absent). -/
def findLastIdx (c : Char) : List Char → Option Nat
  | [] => none
  | a :: rest =>
    match findLastIdx c rest with
    | some i => some (i + 1)
    | none => if a = c then some 0 else none

/-- `os.path.splitext` on a character list (posixpath semantics): split at the
last dot that lies after the last path separator, unless every character of
the basename up to that dot is itself a dot (leading dots are not an
extension separator). -/
def splitextList (p : List Char) : List Char × List Char :=
  let sepIndex : Int :=
    match findLastIdx (Char.ofNat 47) p with
    | some i => (i : Int)
    | none => -1
  let dotIndex : Int :=
    match findLastIdx (Char.ofNat 46) p with
    | some i => (i : Int)
    | none => -1
  if sepIndex < dotIndex then
    let d := dotIndex.toNat
    let start := (sepIndex + 1).toNat
    if ((List.range d).drop start).any (fun i => p.get? i != some (Char.ofNat 46)) then
      (p.take d, p.drop d)
    else
      (p, [])
  else
    (p, [])

/-- `os.path.splitext` on strings: `(root, extension)`. -/
def splitext (p : String) : String × String :=
  let q := splitextList p.toList
  (String.mk q.1, String.mk q.2)

/-- The apostrophe character, used in the diagnostic messages of the script. -/
def q27 : String := "\x27"

/-- Observable outcome of `convert_tdms_to_hdf5` (and of `main`): either the
process terminates via `sys.exit` with an exit code after printing messages, or
the conversion succeeds, having written the output file at `outputPath`. -/
inductive ConvResult where
  | exitErr (code : Nat) (printed : List String)
  | success (outputPath : String) (printed : List String)
  deriving DecidableEq, Repr

/-- Output files written in a `ConvResult`: none on `sys.exit`, the one output
file on success. -/
def filesWritten : ConvResult → List String
  | ConvResult.exitErr _ _ => []
  | ConvResult.success out _ => [out]

/-- `convert_tdms_to_hdf5(tdms_filepath, hdf5_filepath=None)`.  The filesystem
is abstracted by the predicate `fileExists` (`os.path.exists`); the TDMS
decoding and HDF5 writing are delegated to the external library
(`TdmsFile.read` / `as_hdf`), so the model records the chosen output path and
the printed messages. -/
def convert_tdms_to_hdf5 (fileExists : String → Bool) (tdms_filepath : String)
    (hdf5_filepath : Option String) : ConvResult :=
  if fileExists tdms_filepath = false then
    ConvResult.exitErr 1
      ["Error: The file " ++ q27 ++ tdms_filepath ++ q27 ++ " does not exist."]
  else
    let out : String :=
      match hdf5_filepath with
      | none => (splitext tdms_filepath).1 ++ ".h5"
      | some p => p
    ConvResult.success out
      ["Converting " ++ q27 ++ tdms_filepath ++ q27 ++ " to " ++ q27 ++ out ++ q27 ++ "...",
       "Conversion complete!"]

/-- The `copy_item(name, obj)` callback of `compress_hdf5_file`: a dataset is
re-created at the same full path with the data read from the source
(`obj[()]`, hence same shape, dtype and values) and the requested compression
applied, then its attributes are copied pairwise; a group is re-created
(`require_group`) at the same full path and its attributes are copied
pairwise. -/
def copy_item (compression : String) (compression_opts : Int) :
    String × H5Obj → String × H5Obj
  | (name, H5Obj.dataset shape dtype data attrs _) =>
      (name, H5Obj.dataset shape dtype data attrs (some (compression, compression_opts)))
  | (name, H5Obj.group attrs) => (name, H5Obj.group attrs)

/-- Observable outcome of `compress_hdf5_file`: the derived output path, the
output file written there, the printed messages, and the Python return value
(`none` models `None`). -/
structure CompressResult where
  outputPath : String
  outputFile : H5File
  printed : List String
  ret : Option String
  deriving DecidableEq, Repr

/-- The output path derivation of `compress_hdf5_file`:
`base + "_compressed" + ext` where `base, ext = os.path.splitext(input_path)`. -/
def compressOutputPath (input_path : String) : String :=
  (splitext input_path).1 ++ "_compressed" ++ (splitext input_path).2

/-- `compress_hdf5_file(input_path, compression="gzip", compression_opts=9)`
applied to the HDF5 file `f_in` found at `input_path`.  The output file is
created fresh (mode `w`: empty root attributes, no objects) and then populated
by `f_in.visititems(copy_item)`, which visits every object strictly below the
root — the root group itself is never passed to the callback. -/
def compress_hdf5_file (input_path : String) (f_in : H5File)
    (compression : String) (compression_opts : Int) : CompressResult :=
  let output_path := compressOutputPath input_path
  let f_out : H5File :=
    { rootAttrs := [],
      objects := f_in.objects.map (copy_item compression compression_opts) }
  { outputPath := output_path,
    outputFile := f_out,
    printed := ["Compressed file saved as: " ++ output_path],
    ret := none }

/-- File-handle effects performed by `compress_hdf5_file`, in order:
`h5py.File(input_path, "r")`, `h5py.File(output_path, "w")`, and the closing
of both handles when the `with` block is left. -/
inductive FEffect where
  | openRead (path : String)
  | openWrite (path : String)
  | closeHandles
  deriving DecidableEq, Repr

/-- One run of `compress_hdf5_file` against a filesystem (a map from paths to
the valid HDF5 files stored there).  The `with` statement opens the input
first; if no valid HDF5 container is at `input_path` this open raises and
nothing else happens (filesystem unchanged, no result).  Otherwise the output
file is created at the derived path (overwriting anything there) and both
handles are closed at the end of the block.  Returns the new filesystem, the
effect trace, and the procedure result. -/
def runCompress (fs : String → Option H5File) (input_path : String)
    (compression : String) (compression_opts : Int) :
    (String → Option H5File) × List FEffect × Option CompressResult :=
  match fs input_path with
  | none => (fs, [FEffect.openRead input_path], none)
  | some f_in =>
      let r := compress_hdf5_file input_path f_in compression compression_opts
      (fun q => if q = r.outputPath then some r.outputFile else fs q,
       [FEffect.openRead input_path, FEffect.openWrite r.outputPath,
        FEffect.closeHandles],
       some r)

/-- Python truthiness test `not x` for an optional string: true on `None` and
on the empty string. -/
def pyFalsy : Option String → Bool
  | none => true
  | some s => s == ""

/-- `main(tdms_filepath, hdf5_filepath=None)`: when command-line arguments are
present (`len(sys.argv) > 1`) they override the parameters; otherwise a falsy
`tdms_filepath` prints a diagnostic and exits with status 1, and a falsy
`hdf5_filepath` is normalised to `None`.  Then conversion runs. -/
def mainFn (argv : List String) (fileExists : String → Bool)
    (tdms_filepath : Option String) (hdf5_filepath : Option String) : ConvResult :=
  if argv.length > 1 then
    convert_tdms_to_hdf5 fileExists (argv.getD 1 "")
      (if argv.length > 2 then some (argv.getD 2 "") else none)
  else if pyFalsy tdms_filepath then
    ConvResult.exitErr 1 ["No TDMS file provided. Exiting."]
  else
    convert_tdms_to_hdf5 fileExists (tdms_filepath.getD "")
      (if pyFalsy hdf5_filepath then none else hdf5_filepath)

/-- Erase the on-disk encoding of an object, keeping path-independent content
(shape, dtype, data, attributes): two objects are "equal up to on-disk
encoding" when their erasures coincide. -/
def stripEncoding : H5Obj → H5Obj
  | H5Obj.dataset shape dtype data attrs _ => H5Obj.dataset shape dtype data attrs none
  | H5Obj.group attrs => H5Obj.group attrs

/-- A two-object input file used to witness C2. -/
def c2File : H5File :=
  { rootAttrs := [],
    objects := [("grp", H5Obj.group [("who", "lab")]),
                ("grp/ch1", H5Obj.dataset [2] "int32" [1, 2] [("unit", "volts")] none)] }

/-- An input file whose root group carries an attribute, used against C1. -/
def c1File : H5File :=
  { rootAttrs := [("title", "run 1")], objects := [] }

/-- The HDF5 file stored at `a/b.h5` in the witness filesystem for C7. -/
def c7File : H5File :=
  { rootAttrs := [("t", "x")],
    objects := [("g", H5Obj.group []),
                ("g/d", H5Obj.dataset [1] "f64" [7] [] none)] }

/-- The witness filesystem for C7: one valid HDF5 file at `a/b.h5`. -/
def c7fs : String → Option H5File :=
  fun q => if q = "a/b.h5" then some c7File else none

/-- `splitext` agrees with `os.path.splitext` on representative inputs,
including the edge cases: no extension, a leading-dot basename, and a dot in
a directory component only. -/
theorem splitext_examples :
    splitext "x/y.tdms" = ("x/y", ".tdms") ∧
    splitext "a/b.h5" = ("a/b", ".h5") ∧
    splitext "noext" = ("noext", "") ∧
    splitext ".bashrc" = (".bashrc", "") ∧
    splitext "a.b/c" = ("a.b/c", "") := by
  refine ⟨?_, ?_, ?_, ?_, ?_⟩ <;> decide

/-- `copy_item` keeps the full path of the object it copies. -/
theorem copy_item_fst (c : String) (o : Int) (x : String × H5Obj) :
    (copy_item c o x).1 = x.1 := by
  obtain ⟨n, obj⟩ := x
  cases obj <;> rfl

/-- `copy_item` changes nothing but the on-disk encoding. -/
theorem stripEncoding_copy_item (c : String) (o : Int) (x : String × H5Obj) :
    stripEncoding (copy_item c o x).2 = stripEncoding x.2 := by
  obtain ⟨n, obj⟩ := x
  cases obj <;> rfl

/-- `os.path.splitext` splits its argument: root and extension concatenate
back to the input. -/
theorem splitextList_append (p : List Char) :
    (splitextList p).1 ++ (splitextList p).2 = p := by
  simp only [splitextList]
  split
  · split
    · exact List.take_append_drop _ _
    · simp
  · simp

/-- The compressor's output path is eleven characters longer than its input
path (the inserted suffix). -/
theorem compressOutputPath_length (p : String) :
    (compressOutputPath p).length = p.length + 11 := by
  have h : (splitextList p.toList).1.length + (splitextList p.toList).2.length
      = p.length := by
    rw [← List.length_append, splitextList_append]
    rfl
  have e : (compressOutputPath p).length
      = (splitextList p.toList).1.length + 11 + (splitextList p.toList).2.length := by
    show (String.mk (splitextList p.toList).1 ++ "_compressed"
        ++ String.mk (splitextList p.toList).2).length = _
    rw [String.length_append, String.length_append]
    rfl
  omega

/-- The compressor never writes to its input path: the derived output path is
distinct from the input path. -/
theorem compressOutputPath_ne (p : String) : compressOutputPath p ≠ p := by
  intro hEq
  have h := compressOutputPath_length p
  rw [hEq] at h
  omega

/-- Evaluation of one `runCompress` step when a valid HDF5 file is stored at
the input path. -/
theorem runCompress_eq_of_some (fs : String → Option H5File) (p : String)
    (c : String) (o : Int) (f : H5File) (h : fs p = some f) :
    runCompress fs p c o
      = (fun q => if q = compressOutputPath p
            then some (compress_hdf5_file p f c o).outputFile else fs q,
         [FEffect.openRead p, FEffect.openWrite (compressOutputPath p),
          FEffect.closeHandles],
         some (compress_hdf5_file p f c o)) := by
  unfold runCompress
  rw [h]
  rfl

/-- C9: for every input, `compress_hdf5_file` returns `None` to its caller
(the `return output_path` statement is commented out), so the output path is
communicated only through the printed completion message. -/
theorem C9_compress_returns_none (p : String) (f : H5File) (c : String) (o : Int) :
    (compress_hdf5_file p f c o).ret = none ∧
    (compress_hdf5_file p f c o).printed
      = ["Compressed file saved as: " ++ (compress_hdf5_file p f c o).outputPath] :=
  ⟨rfl, rfl⟩

/-- C4: the compressor's output path is a pure function of the input path with
no user override: the `_compressed` suffix is inserted between the root and
the extension produced by `os.path.splitext`; in particular `a/b.h5` yields
`a/b_compressed.h5`. -/
theorem C4_compressor_output_path (p : String) (f : H5File) (c : String) (o : Int) :
    (compress_hdf5_file p f c o).outputPath
      = (splitext p).1 ++ "_compressed" ++ (splitext p).2 ∧
    (compress_hdf5_file "a/b.h5" f c o).outputPath = "a/b_compressed.h5" :=
  ⟨rfl, rfl⟩

/-- C3: when no output path is supplied and the source exists, the converter
targets the source path with its `os.path.splitext` extension stripped and
`.h5` appended; in particular `x/y.tdms` yields `x/y.h5`. -/
theorem C3_converter_default_output (fe : String → Bool) (p : String)
    (h : fe p = true) :
    convert_tdms_to_hdf5 fe p none
      = ConvResult.success ((splitext p).1 ++ ".h5")
          ["Converting " ++ q27 ++ p ++ q27 ++ " to " ++ q27
              ++ ((splitext p).1 ++ ".h5") ++ q27 ++ "...",
           "Conversion complete!"] ∧
    (splitext "x/y.tdms").1 ++ ".h5" = "x/y.h5" := by
  refine ⟨?_, by decide⟩
  simp [convert_tdms_to_hdf5, h]

/-- Witness for C3 at the spec's own example, with a filesystem on which the
source exists. -/
theorem C3_witness :
    ((fun _ : String => true) "x/y.tdms" = true) ∧
    (convert_tdms_to_hdf5 (fun _ : String => true) "x/y.tdms" none
      = ConvResult.success ((splitext "x/y.tdms").1 ++ ".h5")
          ["Converting " ++ q27 ++ "x/y.tdms" ++ q27 ++ " to " ++ q27
              ++ ((splitext "x/y.tdms").1 ++ ".h5") ++ q27 ++ "...",
           "Conversion complete!"] ∧
     (splitext "x/y.tdms").1 ++ ".h5" = "x/y.h5") :=
  ⟨rfl, C3_converter_default_output (fun _ : String => true) "x/y.tdms" rfl⟩

/-- C5: on a path that does not exist, the converter prints a diagnostic
containing the path, exits with status 1, and writes no output file. -/
theorem C5_missing_input (fe : String → Bool) (p : String) (h5 : Option String)
    (h : fe p = false) :
    convert_tdms_to_hdf5 fe p h5
      = ConvResult.exitErr 1
          ["Error: The file " ++ q27 ++ p ++ q27 ++ " does not exist."] ∧
    (∃ a b, "Error: The file " ++ q27 ++ p ++ q27 ++ " does not exist."
        = a ++ p ++ b) ∧
    filesWritten (convert_tdms_to_hdf5 fe p h5) = [] := by
  have e : convert_tdms_to_hdf5 fe p h5
      = ConvResult.exitErr 1
          ["Error: The file " ++ q27 ++ p ++ q27 ++ " does not exist."] := by
    simp [convert_tdms_to_hdf5, h]
  refine ⟨e, ⟨"Error: The file " ++ q27, q27 ++ " does not exist.", ?_⟩, ?_⟩
  · rw [String.append_assoc]
  · rw [e]
    rfl

/-- Witness for C5 on a filesystem where no path exists. -/
theorem C5_witness :
    ((fun _ : String => false) "missing.tdms" = false) ∧
    (convert_tdms_to_hdf5 (fun _ : String => false) "missing.tdms" none
      = ConvResult.exitErr 1
          ["Error: The file " ++ q27 ++ "missing.tdms" ++ q27 ++ " does not exist."] ∧
     (∃ a b, "Error: The file " ++ q27 ++ "missing.tdms" ++ q27 ++ " does not exist."
        = a ++ "missing.tdms" ++ b) ∧
     filesWritten (convert_tdms_to_hdf5 (fun _ : String => false) "missing.tdms" none) = []) :=
  ⟨rfl, C5_missing_input (fun _ : String => false) "missing.tdms" none rfl⟩

/-- C6: with no command-line argument beyond the program name and no default
input path configured (falsy `tdms_filepath`), `main` prints a diagnostic,
exits with status 1, and writes no output file. -/
theorem C6_no_args_exit (argv : List String) (fe : String → Bool)
    (t0 h0 : Option String) (hlen : argv.length ≤ 1) (ht : pyFalsy t0 = true) :
    mainFn argv fe t0 h0
      = ConvResult.exitErr 1 ["No TDMS file provided. Exiting."] ∧
    filesWritten (mainFn argv fe t0 h0) = [] := by
  have hgt : ¬ (argv.length > 1) := by omega
  have e : mainFn argv fe t0 h0
      = ConvResult.exitErr 1 ["No TDMS file provided. Exiting."] := by
    simp [mainFn, hgt, ht]
  refine ⟨e, ?_⟩
  rw [e]
  rfl

/-- Witness for C6: `argv` holds the program name only, no defaults set. -/
theorem C6_witness :
    (["prog"].length ≤ 1 ∧ pyFalsy none = true) ∧
    (mainFn ["prog"] (fun _ : String => false) none none
        = ConvResult.exitErr 1 ["No TDMS file provided. Exiting."] ∧
     filesWritten (mainFn ["prog"] (fun _ : String => false) none none) = []) :=
  ⟨⟨by decide, rfl⟩,
   C6_no_args_exit ["prog"] (fun _ : String => false) none none (by decide) rfl⟩

/-- C2: every dataset of the input reappears in the output at the same full
path with the same shape, element type and data, with the requested
compression codec and level applied, and with its attribute pairs copied
verbatim. -/
theorem C2_dataset_copy (p : String) (f : H5File) (c : String) (o : Int)
    (n : String) (sh : List Nat) (dt : String) (da : List Int)
    (ats : List (String × String)) (enc : Option (String × Int))
    (h : (n, H5Obj.dataset sh dt da ats enc) ∈ f.objects) :
    (n, H5Obj.dataset sh dt da ats (some (c, o)))
      ∈ (compress_hdf5_file p f c o).outputFile.objects := by
  have e : (n, H5Obj.dataset sh dt da ats (some (c, o)))
      = copy_item c o (n, H5Obj.dataset sh dt da ats enc) := rfl
  rw [e]
  exact List.mem_map_of_mem _ h

/-- Witness for C2 on a concrete file holding one group and one dataset. -/
theorem C2_witness :
    (("grp/ch1", H5Obj.dataset [2] "int32" [1, 2] [("unit", "volts")] none)
        ∈ c2File.objects) ∧
    (("grp/ch1", H5Obj.dataset [2] "int32" [1, 2] [("unit", "volts")]
          (some ("gzip", 9)))
        ∈ (compress_hdf5_file "run.h5" c2File "gzip" 9).outputFile.objects) :=
  ⟨by decide,
   C2_dataset_copy "run.h5" c2File "gzip" 9 "grp/ch1" [2] "int32" [1, 2]
     [("unit", "volts")] none (by decide)⟩

/-- C1 counterexample: compressing a file whose root group carries an
attribute yields an output whose root group has no attributes —
`visititems` never passes the root group to the callback, so the isomorphism
claimed for every node fails at the root. -/
theorem C1_root_attrs_counterexample :
    (compress_hdf5_file "a/b.h5" c1File "gzip" 9).outputFile.rootAttrs
      ≠ c1File.rootAttrs := by
  decide

/-- C1 amended: the output tree is isomorphic to the input tree below the
root — the same full paths in the same order, and at each path an object
equal to the source object up to on-disk encoding — while the output root
group carries no attributes (the input's root attributes are not copied). -/
theorem C1_compress_isomorphic_below_root (p : String) (f : H5File)
    (c : String) (o : Int) :
    (compress_hdf5_file p f c o).outputFile.objects.map Prod.fst
        = f.objects.map Prod.fst ∧
    (compress_hdf5_file p f c o).outputFile.objects.map (fun x => stripEncoding x.2)
        = f.objects.map (fun x => stripEncoding x.2) ∧
    (compress_hdf5_file p f c o).outputFile.rootAttrs = [] := by
  refine ⟨?_, ?_, rfl⟩
  · show (f.objects.map (copy_item c o)).map Prod.fst = f.objects.map Prod.fst
    rw [List.map_map]
    exact List.map_congr_left fun a _ => copy_item_fst c o a
  · show (f.objects.map (copy_item c o)).map (fun x => stripEncoding x.2)
        = f.objects.map (fun x => stripEncoding x.2)
    rw [List.map_map]
    exact List.map_congr_left fun a _ => stripEncoding_copy_item c o a

/-- C10: when no valid HDF5 container is at the input path, the opening of the
input (which precedes the creation of the output in the `with` header) raises:
the filesystem is unchanged, the effect trace holds the failed read-open only
(in particular no output file is created), and no result is produced. -/
theorem C10_invalid_input_no_output (fs : String → Option H5File)
    (p : String) (c : String) (o : Int) (h : fs p = none) :
    (runCompress fs p c o).1 = fs ∧
    (runCompress fs p c o).2.1 = [FEffect.openRead p] ∧
    (runCompress fs p c o).2.2 = none := by
  unfold runCompress
  rw [h]
  exact ⟨rfl, rfl, rfl⟩

/-- Witness for C10 on an empty filesystem. -/
theorem C10_witness :
    ((fun _ : String => (none : Option H5File)) "corrupt.h5" = none) ∧
    ((runCompress (fun _ : String => (none : Option H5File)) "corrupt.h5" "gzip" 9).1
        = (fun _ : String => (none : Option H5File)) ∧
     (runCompress (fun _ : String => (none : Option H5File)) "corrupt.h5" "gzip" 9).2.1
        = [FEffect.openRead "corrupt.h5"] ∧
     (runCompress (fun _ : String => (none : Option H5File)) "corrupt.h5" "gzip" 9).2.2
        = none) :=
  ⟨rfl, C10_invalid_input_no_output (fun _ => none) "corrupt.h5" "gzip" 9 rfl⟩

/-- C7: running the compressor a second time on the same source file with the
same codec and level overwrites the first output with an identical file — the
first run leaves the input untouched (the output path differs from the input
path), so the second run reads the same input and writes the same output, and
both runs produce the same result. -/
theorem C7_compress_rerun_identical (fs : String → Option H5File) (p : String)
    (c : String) (o : Int) (f : H5File) (h : fs p = some f) :
    (runCompress (runCompress fs p c o).1 p c o).1 (compressOutputPath p)
        = (runCompress fs p c o).1 (compressOutputPath p) ∧
    (runCompress (runCompress fs p c o).1 p c o).2.2
        = (runCompress fs p c o).2.2 := by
  have hne : ¬ (p = compressOutputPath p) :=
    fun e => compressOutputPath_ne p e.symm
  have h1 := runCompress_eq_of_some fs p c o f h
  have hfs1 : (runCompress fs p c o).1 p = some f := by
    rw [h1]
    show (if p = compressOutputPath p
        then some (compress_hdf5_file p f c o).outputFile else fs p) = some f
    rw [if_neg hne]
    exact h
  have h2 := runCompress_eq_of_some ((runCompress fs p c o).1) p c o f hfs1
  constructor
  · rw [h2, h1]
    simp
  · rw [h2, h1]

/-- Witness for C7 on a concrete one-file filesystem. -/
theorem C7_witness :
    (c7fs "a/b.h5" = some c7File) ∧
    ((runCompress (runCompress c7fs "a/b.h5" "gzip" 9).1 "a/b.h5" "gzip" 9).1
          (compressOutputPath "a/b.h5")
        = (runCompress c7fs "a/b.h5" "gzip" 9).1 (compressOutputPath "a/b.h5") ∧
     (runCompress (runCompress c7fs "a/b.h5" "gzip" 9).1 "a/b.h5" "gzip" 9).2.2
        = (runCompress c7fs "a/b.h5" "gzip" 9).2.2) :=
  ⟨by decide, C7_compress_rerun_identical c7fs "a/b.h5" "gzip" 9 c7File (by decide)⟩
